import Mathlib

/-!
Verification of the `timeRange` and `weekdayRange` predicates of
node-pac-resolver (src/timeRange.ts, src/weekdayRange.ts).

JavaScript numbers that can be NaN (the result of `parseInt`) are modelled
as `Option Int`, with `none` playing the role of the NaN sentinel: every
comparison involving `none` is false, and arithmetic on `none` yields
`none`, exactly as NaN behaves under `<=`, `<`, `===`, `*` and `+`.

The ambient clock (`new Date()`) is modelled as an explicit `Clock`
snapshot carrying both the local and the UTC projections of the current
moment; each evaluation receives one snapshot, mirroring the single
`currentDate` the source captures at the start of a call.
-/

/-- One snapshot of the system clock, with its local-timezone and UTC
field projections (`getHours` / `getUTCHours`, etc.). -/
structure Clock where
  localHour : Int
  localMin : Int
  localSec : Int
  localDay : Int
  utcHour : Int
  utcMin : Int
  utcSec : Int
  utcDay : Int
deriving DecidableEq, Repr

/-- A physically possible clock snapshot: hours in 0..23, minutes and
seconds in 0..59, weekday index in 0..6, in both projections. -/
def Clock.Valid (c : Clock) : Prop :=
  0 ≤ c.localHour ∧ c.localHour ≤ 23 ∧
  0 ≤ c.localMin ∧ c.localMin ≤ 59 ∧
  0 ≤ c.localSec ∧ c.localSec ≤ 59 ∧
  0 ≤ c.localDay ∧ c.localDay ≤ 6 ∧
  0 ≤ c.utcHour ∧ c.utcHour ≤ 23 ∧
  0 ≤ c.utcMin ∧ c.utcMin ≤ 59 ∧
  0 ≤ c.utcSec ∧ c.utcSec ≤ 59 ∧
  0 ≤ c.utcDay ∧ c.utcDay ≤ 6

instance (c : Clock) : Decidable c.Valid := by
  unfold Clock.Valid; infer_instance

/-- A raw JavaScript argument as it reaches `timeRange` through
`arguments`: an (integer-valued) number, a string, or `undefined`
(what `[].pop()` returns on an empty argument list). -/
inductive JSArg where
  | num : Int → JSArg
  | str : String → JSArg
  | undef : JSArg
deriving DecidableEq, Repr

/-- The integer value of a maximal leading run of decimal digits;
`none` when the run is empty. -/
def leadingDigits (cs : List Char) : Option Nat :=
  let ds := cs.takeWhile Char.isDigit
  if ds.isEmpty then none
  else some (ds.foldl (fun acc ch => 10 * acc + (ch.toNat - 48)) 0)

/-- JavaScript `parseInt(s, 10)`: skip leading spaces, read an optional
sign and a maximal run of decimal digits; NaN (`none`) when no digit is
found. -/
def jsParseInt (s : String) : Option Int :=
  let cs := s.data.dropWhile (fun ch => ch = ' ')
  match cs with
  | '-' :: rest => (leadingDigits rest).map (fun n => -(n : Int))
  | '+' :: rest => (leadingDigits rest).map (fun n => (n : Int))
  | _ => (leadingDigits cs).map (fun n => (n : Int))

/-- `parseInt(arg, 10)` on a raw argument: a number parses to itself,
a string through `jsParseInt`, and `undefined` to NaN. -/
def parseIntArg : JSArg → Option Int
  | .num n => some n
  | .str s => jsParseInt s
  | .undef => none

/-- JavaScript `a <= b` on possibly-NaN numbers: false when either side
is NaN. -/
def jsLe (a b : Option Int) : Bool :=
  match a, b with
  | some x, some y => decide (x ≤ y)
  | _, _ => false

/-- JavaScript `a < b` on possibly-NaN numbers: false when either side
is NaN. -/
def jsLt (a b : Option Int) : Bool :=
  match a, b with
  | some x, some y => decide (x < y)
  | _, _ => false

/-- JavaScript `a === b` on possibly-NaN numbers: false when either side
is NaN (NaN is not `===` to anything, including itself). -/
def jsEq (a b : Option Int) : Bool :=
  match a, b with
  | some x, some y => decide (x = y)
  | _, _ => false

namespace TimeRange

/-- `hh * 3600 + mm * 60 + ss`, with NaN propagation. -/
def secondsElapsedToday (hh mm ss : Option Int) : Option Int :=
  match hh, mm, ss with
  | some h, some m, some s => some (h * 3600 + m * 60 + s)
  | _, _, _ => none

/-- `gmt ? currentDate.getUTCHours() : currentDate.getHours()`. -/
def getCurrentHour (gmt : Bool) (c : Clock) : Int :=
  if gmt then c.utcHour else c.localHour

/-- `gmt ? currentDate.getUTCMinutes() : currentDate.getMinutes()`. -/
def getCurrentMinute (gmt : Bool) (c : Clock) : Int :=
  if gmt then c.utcMin else c.localMin

/-- `gmt ? currentDate.getUTCSeconds() : currentDate.getSeconds()`. -/
def getCurrentSecond (gmt : Bool) (c : Clock) : Int :=
  if gmt then c.utcSec else c.localSec

/-- `start <= value && value <= finish` on possibly-NaN numbers. -/
def valueInRange (start value finish : Option Int) : Bool :=
  jsLe start value && jsLe value finish

/-- The arity dispatch of `timeRange` after the GMT marker has been
stripped and the arguments have been through `parseInt`: the 1, 2, 4 and
6 argument branches of the source, with `result` defaulting to `false`
for every other arity. -/
def timeRangeNum (useGMTzone : Bool) (numericArgs : List (Option Int))
    (c : Clock) : Bool :=
  match numericArgs with
  | [a0] =>
      jsEq (some (getCurrentHour useGMTzone c)) a0
  | [a0, a1] =>
      jsLe a0 (some (getCurrentHour useGMTzone c)) &&
      jsLt (some (getCurrentHour useGMTzone c)) a1
  | [a0, a1, a2, a3] =>
      valueInRange
        (secondsElapsedToday a0 a1 (some 0))
        (secondsElapsedToday (some (getCurrentHour useGMTzone c))
          (some (getCurrentMinute useGMTzone c)) (some 0))
        (secondsElapsedToday a2 a3 (some 59))
  | [a0, a1, a2, a3, a4, a5] =>
      valueInRange
        (secondsElapsedToday a0 a1 a2)
        (secondsElapsedToday (some (getCurrentHour useGMTzone c))
          (some (getCurrentMinute useGMTzone c))
          (some (getCurrentSecond useGMTzone c)))
        (secondsElapsedToday a3 a4 a5)
  | _ => false

/-- The prologue of `timeRange`: `args.pop()` the last argument, test it
against the literal string "GMT" with `===`, and push it back when it is
not the marker.  On an empty argument list `pop` returns `undefined`,
which is then pushed back.  Returns `(useGMTzone, args)` as they stand
when the arity dispatch begins. -/
def stripGMT (args : List JSArg) : Bool × List JSArg :=
  match args.getLast? with
  | none => (false, [JSArg.undef])
  | some lastArg =>
      if lastArg = JSArg.str "GMT" then (true, args.dropLast)
      else (false, args)

/-- `timeRange(...)`, the default export of src/timeRange.ts, as a
function of the raw argument list and one clock snapshot. -/
def timeRange (args : List JSArg) (c : Clock) : Bool :=
  let p := stripGMT args
  timeRangeNum p.1 (p.2.map parseIntArg) c

/-- The argument count a `timeRange` call dispatches on: the raw
argument count, less one when the final raw argument is the GMT
marker. -/
def arityAfterGMT (args : List JSArg) : Nat :=
  if args.getLast? = some (JSArg.str "GMT") then args.length - 1
  else args.length

end TimeRange

namespace WeekdayRange

/-- Modelled from the spec: the helper `isGMT` imported from
`src/util.ts`, a file absent from the sources.  Per the spec the GMT/UTC
marker is the case-sensitive literal string "GMT" ("a sentinel argument
selecting UTC clock fields instead of local"); `isGMT` recognises exactly
that token, and an absent (`undefined`) argument is not the marker. -/
def isGMT (v : Option String) : Bool :=
  v = some "GMT"

/-- `['SUN', 'MON', 'TUE', 'WED', 'THU', 'FRI', 'SAT']`. -/
def weekdays : List String :=
  ["SUN", "MON", "TUE", "WED", "THU", "FRI", "SAT"]

/-- JavaScript `Array.prototype.indexOf`: the index of the first
occurrence, or `-1` when the element is absent. -/
def jsIndexOf (l : List String) (s : String) : Int :=
  match l.findIdx? (fun x => x == s) with
  | some i => (i : Int)
  | none => -1

/-- `Array.prototype.indexOf` applied to a possibly-`undefined`
argument: `undefined` is never found in a list of strings. -/
def jsIndexOfOpt (l : List String) (v : Option String) : Int :=
  match v with
  | some s => jsIndexOf l s
  | none => -1

/-- `weekdays.indexOf(v) !== -1`, on a possibly-`undefined` argument. -/
def isWeekday (v : Option String) : Bool :=
  jsIndexOfOpt weekdays v != -1

/-- `gmt ? new Date().getUTCDay() : new Date().getDay()`. -/
def getTodaysDay (gmt : Bool) (c : Clock) : Int :=
  if gmt then c.utcDay else c.localDay

/-- `start <= value && value <= finish` (weekday indices are plain
numbers, never NaN). -/
def valueInRange (start value finish : Int) : Bool :=
  decide (start ≤ value) && decide (value ≤ finish)

/-- `weekdayRange(wd1, wd2?, gmt?)`, the default export of
src/weekdayRange.ts, as a function of its three arguments and one clock
snapshot. -/
def weekdayRange (wd1 : String) (wd2 : Option String)
    (gmt : Option String) (c : Clock) : Bool :=
  let useGMTzone := isGMT gmt || isGMT wd2
  let wd2IsGmt := !isGMT gmt && isGMT wd2
  let wd1Index := jsIndexOf weekdays wd1
  let wd2Index :=
    if !wd2IsGmt && isWeekday wd2 then jsIndexOfOpt weekdays wd2 else -1
  let todaysDay := getTodaysDay useGMTzone c
  if wd2Index < 0 then
    decide (todaysDay = wd1Index)
  else if wd1Index ≤ wd2Index then
    valueInRange wd1Index todaysDay wd2Index
  else
    valueInRange wd1Index todaysDay 6 || valueInRange 0 todaysDay wd2Index

end WeekdayRange

section ConcreteClocks

/-- Local time 23:30:00 on a Sunday (UTC reading identical). -/
def clockNight : Clock := ⟨23, 30, 0, 0, 23, 30, 0, 0⟩

/-- Local midnight on a Wednesday (weekday index 3). -/
def clockWed : Clock := ⟨0, 0, 0, 3, 0, 0, 0, 3⟩

/-- Local midnight on a Monday (weekday index 1). -/
def clockMonday : Clock := ⟨0, 0, 0, 1, 0, 0, 0, 1⟩

/-- Local time 08:30:00. -/
def clockAt083000 : Clock := ⟨8, 30, 0, 0, 8, 30, 0, 0⟩

/-- Local time 17:00:59. -/
def clockAt170059 : Clock := ⟨17, 0, 59, 0, 17, 0, 59, 0⟩

/-- Local time 08:29:59. -/
def clockAt082959 : Clock := ⟨8, 29, 59, 0, 8, 29, 59, 0⟩

/-- Local time 17:01:00. -/
def clockAt170100 : Clock := ⟨17, 1, 0, 0, 17, 1, 0, 0⟩

/-- Local time 09:00:00. -/
def clockAt9 : Clock := ⟨9, 0, 0, 0, 9, 0, 0, 0⟩

/-- Local time 17:00:00. -/
def clockAt17 : Clock := ⟨17, 0, 0, 0, 17, 0, 0, 0⟩

end ConcreteClocks

section Helpers

lemma jsLe_none_left (b : Option Int) : jsLe none b = false := by
  cases b <;> rfl

lemma jsLe_none_right (a : Option Int) : jsLe a none = false := by
  cases a <;> rfl

lemma jsLt_none_left (b : Option Int) : jsLt none b = false := by
  cases b <;> rfl

lemma jsLt_none_right (a : Option Int) : jsLt a none = false := by
  cases a <;> rfl

lemma jsEq_none_left (b : Option Int) : jsEq none b = false := by
  cases b <;> rfl

lemma jsEq_none_right (a : Option Int) : jsEq a none = false := by
  cases a <;> rfl

lemma secondsElapsedToday_none_left (b c : Option Int) :
    TimeRange.secondsElapsedToday none b c = none := by
  cases b <;> cases c <;> rfl

lemma secondsElapsedToday_none_mid (a c : Option Int) :
    TimeRange.secondsElapsedToday a none c = none := by
  cases a <;> cases c <;> rfl

lemma secondsElapsedToday_none_right (a b : Option Int) :
    TimeRange.secondsElapsedToday a b none = none := by
  cases a <;> cases b <;> rfl

lemma timeRangeNum_arity_false (g : Bool) (l : List (Option Int)) (c : Clock)
    (k1 : l.length ≠ 1) (k2 : l.length ≠ 2) (k4 : l.length ≠ 4)
    (k6 : l.length ≠ 6) :
    TimeRange.timeRangeNum g l c = false := by
  rcases l with _ | ⟨a0, _ | ⟨a1, _ | ⟨a2, _ | ⟨a3, _ | ⟨a4, _ | ⟨a5, _ | ⟨a6, rest⟩⟩⟩⟩⟩⟩⟩
  · rfl
  · simp at k1
  · simp at k2
  · rfl
  · simp at k4
  · rfl
  · simp at k6
  · rfl

lemma timeRangeNum_nan_false (g : Bool) (l : List (Option Int)) (c : Clock)
    (hmem : none ∈ l) :
    TimeRange.timeRangeNum g l c = false := by
  rcases l with _ | ⟨a0, _ | ⟨a1, _ | ⟨a2, _ | ⟨a3, _ | ⟨a4, _ | ⟨a5, _ | ⟨a6, rest⟩⟩⟩⟩⟩⟩⟩
  · rfl
  · simp only [List.mem_singleton] at hmem
    subst hmem
    simp [TimeRange.timeRangeNum, jsEq_none_right]
  · simp only [List.mem_cons, List.not_mem_nil, or_false] at hmem
    rcases hmem with h | h <;> subst h <;>
      simp [TimeRange.timeRangeNum, jsLe_none_left, jsLt_none_right]
  · rfl
  · simp only [List.mem_cons, List.not_mem_nil, or_false] at hmem
    rcases hmem with h | h | h | h <;> subst h <;>
      simp [TimeRange.timeRangeNum, TimeRange.valueInRange,
        secondsElapsedToday_none_left, secondsElapsedToday_none_mid,
        secondsElapsedToday_none_right, jsLe_none_left, jsLe_none_right]
  · rfl
  · simp only [List.mem_cons, List.not_mem_nil, or_false] at hmem
    rcases hmem with h | h | h | h | h | h <;> subst h <;>
      simp [TimeRange.timeRangeNum, TimeRange.valueInRange,
        secondsElapsedToday_none_left, secondsElapsedToday_none_mid,
        secondsElapsedToday_none_right, jsLe_none_left, jsLe_none_right]
  · rfl

lemma jsIndexOf_neg_one_or_nonneg (l : List String) (s : String) :
    WeekdayRange.jsIndexOf l s = -1 ∨ 0 ≤ WeekdayRange.jsIndexOf l s := by
  unfold WeekdayRange.jsIndexOf
  cases l.findIdx? (fun x => x == s) with
  | none => left; rfl
  | some i => right; simp

end Helpers

section Scratch

example :
    TimeRange.timeRange [JSArg.num 23, JSArg.num 0, JSArg.num 1, JSArg.num 0]
      ⟨23, 30, 0, 0, 23, 30, 0, 0⟩ = false := by decide

example :
    TimeRange.timeRange [JSArg.num 12, JSArg.str "GMT"]
      ⟨3, 0, 0, 0, 12, 0, 0, 0⟩ = true := by decide

example :
    TimeRange.timeRange [JSArg.num 8, JSArg.num 30, JSArg.num 17, JSArg.num 0]
      ⟨8, 30, 0, 0, 8, 30, 0, 0⟩ = true := by decide

example :
    TimeRange.timeRange [JSArg.num 8, JSArg.num 30, JSArg.num 17, JSArg.num 0]
      ⟨17, 0, 59, 0, 0, 0, 0, 0⟩ = true := by decide

example :
    TimeRange.timeRange [JSArg.num 8, JSArg.num 30, JSArg.num 17, JSArg.num 0]
      ⟨17, 1, 0, 0, 0, 0, 0, 0⟩ = false := by decide

example :
    TimeRange.timeRange [JSArg.str "foo"] ⟨3, 0, 0, 0, 0, 0, 0, 0⟩ = false := by
  decide

example : jsParseInt "17" = some 17 := by decide

example : jsParseInt "9am" = some 9 := by decide

example : jsParseInt "foo" = none := by decide

example :
    WeekdayRange.weekdayRange "XYZ" (some "SAT") none
      ⟨0, 0, 0, 3, 0, 0, 0, 3⟩ = true := by decide

example :
    WeekdayRange.weekdayRange "FRI" (some "MON") none
      ⟨0, 0, 0, 5, 0, 0, 0, 5⟩ = true := by decide

example :
    WeekdayRange.weekdayRange "FRI" (some "MON") none
      ⟨0, 0, 0, 3, 0, 0, 0, 3⟩ = false := by decide

example :
    WeekdayRange.weekdayRange "MON" (some "XYZ") none
      ⟨0, 0, 0, 1, 0, 0, 0, 1⟩ = true := by decide

example :
    WeekdayRange.weekdayRange "SAT" (some "GMT") none
      ⟨0, 0, 0, 3, 0, 0, 0, 6⟩ = true := by decide

end Scratch

section TimeRangeClaims

/-- Claim C1 counterexample: the window 23:00-01:00 has its start instant
(82800 s) above its end instant (3659 s), and at local time 23:30:00 the
cyclic-interval reading of the claim is satisfied (now is at or after the
start instant), yet `timeRange(23, 0, 1, 0)` evaluates to false: the
4-argument form performs a plain inclusive range test and never wraps
across midnight. -/
theorem timeRange_noWraparound_cex :
    ((1 : Int) * 3600 + 0 * 60 + 59 < 23 * 3600 + 0 * 60 + 0) ∧
    ((23 : Int) * 3600 + 0 * 60 + 0 ≤
        clockNight.localHour * 3600 + clockNight.localMin * 60 +
          clockNight.localSec ∨
      clockNight.localHour * 3600 + clockNight.localMin * 60 +
          clockNight.localSec ≤ (1 : Int) * 3600 + 0 * 60 + 59) ∧
    TimeRange.timeRange
        [JSArg.num 23, JSArg.num 0, JSArg.num 1, JSArg.num 0]
        clockNight
      = false := by
  refine ⟨by decide, Or.inl (by decide), by decide⟩

/-- Claim C1 (amended): for the 4- and 6-argument forms of
`timeRange`, a window whose start instant-of-day exceeds its end
instant-of-day is an empty window, not a wraparound one: for every clock
reading the result is false, since the test is a single inclusive
start-to-end comparison that no value satisfies when start exceeds
end. -/
theorem timeRange_startAfterEnd_false :
    (∀ (h1 m1 h2 m2 : Int) (c : Clock),
       h2 * 3600 + m2 * 60 + 59 < h1 * 3600 + m1 * 60 + 0 →
       TimeRange.timeRange
           [JSArg.num h1, JSArg.num m1, JSArg.num h2, JSArg.num m2] c
         = false) ∧
    (∀ (h1 m1 s1 h2 m2 s2 : Int) (c : Clock),
       h2 * 3600 + m2 * 60 + s2 < h1 * 3600 + m1 * 60 + s1 →
       TimeRange.timeRange
           [JSArg.num h1, JSArg.num m1, JSArg.num s1,
            JSArg.num h2, JSArg.num m2, JSArg.num s2] c
         = false) := by
  constructor
  · intro h1 m1 h2 m2 c hlt
    have key :
        TimeRange.timeRange
            [JSArg.num h1, JSArg.num m1, JSArg.num h2, JSArg.num m2] c
          = (decide (h1 * 3600 + m1 * 60 + 0 ≤
                c.localHour * 3600 + c.localMin * 60 + 0) &&
             decide (c.localHour * 3600 + c.localMin * 60 + 0 ≤
                h2 * 3600 + m2 * 60 + 59)) := rfl
    rw [key, ← Bool.decide_and]
    exact decide_eq_false (by omega)
  · intro h1 m1 s1 h2 m2 s2 c hlt
    have key :
        TimeRange.timeRange
            [JSArg.num h1, JSArg.num m1, JSArg.num s1,
             JSArg.num h2, JSArg.num m2, JSArg.num s2] c
          = (decide (h1 * 3600 + m1 * 60 + s1 ≤
                c.localHour * 3600 + c.localMin * 60 + c.localSec) &&
             decide (c.localHour * 3600 + c.localMin * 60 + c.localSec ≤
                h2 * 3600 + m2 * 60 + s2)) := rfl
    rw [key, ← Bool.decide_and]
    exact decide_eq_false (by omega)

/-- Witness for the amended claim C1, at the concrete window 23:00-01:00
and local time 23:30:00. -/
theorem timeRange_startAfterEnd_false_witness :
    ((1 : Int) * 3600 + 0 * 60 + 59 < 23 * 3600 + 0 * 60 + 0) ∧
    TimeRange.timeRange
        [JSArg.num 23, JSArg.num 0, JSArg.num 1, JSArg.num 0]
        clockNight
      = false :=
  ⟨by decide,
   timeRange_startAfterEnd_false.1 23 0 1 0 clockNight (by decide)⟩

/-- Claim C4: the 2-argument form `timeRange(hour1, hour2)` is true iff
`hour1 <= currentHour < hour2`, half-open on the upper bound: at
`currentHour = hour2` the result is false, and (for a nonempty window
`hour1 < hour2`) at `currentHour = hour1` the result is true; in
particular `timeRange(9, 17)` is false at hour exactly 17 and true at
hour exactly 9. -/
theorem timeRange_twoArg_halfOpen :
    (∀ (h1 h2 : Int) (c : Clock),
       TimeRange.timeRange [JSArg.num h1, JSArg.num h2] c
         = decide (h1 ≤ c.localHour ∧ c.localHour < h2)) ∧
    (∀ (h1 h2 : Int) (c : Clock), c.localHour = h2 →
       TimeRange.timeRange [JSArg.num h1, JSArg.num h2] c = false) ∧
    (∀ (h1 h2 : Int) (c : Clock), h1 < h2 → c.localHour = h1 →
       TimeRange.timeRange [JSArg.num h1, JSArg.num h2] c = true) ∧
    TimeRange.timeRange [JSArg.num 9, JSArg.num 17] clockAt17 = false ∧
    TimeRange.timeRange [JSArg.num 9, JSArg.num 17] clockAt9 = true := by
  have key : ∀ (h1 h2 : Int) (c : Clock),
      TimeRange.timeRange [JSArg.num h1, JSArg.num h2] c
        = (decide (h1 ≤ c.localHour) && decide (c.localHour < h2)) :=
    fun _ _ _ => rfl
  refine ⟨?_, ?_, ?_, by decide, by decide⟩
  · intro h1 h2 c
    rw [key, ← Bool.decide_and]
  · intro h1 h2 c h
    rw [key, ← Bool.decide_and]
    exact decide_eq_false (by omega)
  · intro h1 h2 c hlt h
    rw [key, ← Bool.decide_and]
    exact decide_eq_true (by omega)

/-- Witness for claim C4, at the window (9, 17) and local hour 9. -/
theorem timeRange_twoArg_halfOpen_witness :
    ((9 : Int) < 17) ∧ clockAt9.localHour = 9 ∧
    TimeRange.timeRange [JSArg.num 9, JSArg.num 17] clockAt9 = true :=
  ⟨by decide, by decide,
   timeRange_twoArg_halfOpen.2.2.1 9 17 clockAt9 (by decide) (by decide)⟩

/-- Claim C5: the 4-argument form `timeRange(hour1, min1, hour2, min2)`
fills in seconds 0 for the start bound and 59 for the end bound and
tests inclusively against now's seconds-elapsed-today; in particular
`timeRange(8, 30, 17, 0)` is true at 08:30:00 and 17:00:59 and false at
08:29:59 and 17:01:00. -/
theorem timeRange_fourArg_inclusive :
    (∀ (h1 m1 h2 m2 : Int) (c : Clock), c.Valid →
       TimeRange.timeRange
           [JSArg.num h1, JSArg.num m1, JSArg.num h2, JSArg.num m2] c
         = decide (h1 * 3600 + m1 * 60 + 0 ≤
               c.localHour * 3600 + c.localMin * 60 + c.localSec ∧
             c.localHour * 3600 + c.localMin * 60 + c.localSec ≤
               h2 * 3600 + m2 * 60 + 59)) ∧
    TimeRange.timeRange
        [JSArg.num 8, JSArg.num 30, JSArg.num 17, JSArg.num 0]
        clockAt083000 = true ∧
    TimeRange.timeRange
        [JSArg.num 8, JSArg.num 30, JSArg.num 17, JSArg.num 0]
        clockAt170059 = true ∧
    TimeRange.timeRange
        [JSArg.num 8, JSArg.num 30, JSArg.num 17, JSArg.num 0]
        clockAt082959 = false ∧
    TimeRange.timeRange
        [JSArg.num 8, JSArg.num 30, JSArg.num 17, JSArg.num 0]
        clockAt170100 = false := by
  refine ⟨?_, by decide, by decide, by decide, by decide⟩
  intro h1 m1 h2 m2 c hv
  unfold Clock.Valid at hv
  have key :
      TimeRange.timeRange
          [JSArg.num h1, JSArg.num m1, JSArg.num h2, JSArg.num m2] c
        = (decide (h1 * 3600 + m1 * 60 + 0 ≤
              c.localHour * 3600 + c.localMin * 60 + 0) &&
           decide (c.localHour * 3600 + c.localMin * 60 + 0 ≤
              h2 * 3600 + m2 * 60 + 59)) := rfl
  rw [key, ← Bool.decide_and]
  exact decide_eq_decide.mpr (by omega)

/-- Witness for claim C5, at the window (8, 30, 17, 0) and local time
17:00:59. -/
theorem timeRange_fourArg_inclusive_witness :
    clockAt170059.Valid ∧
    TimeRange.timeRange
        [JSArg.num 8, JSArg.num 30, JSArg.num 17, JSArg.num 0]
        clockAt170059
      = decide ((8 : Int) * 3600 + 30 * 60 + 0 ≤
            clockAt170059.localHour * 3600 + clockAt170059.localMin * 60 +
              clockAt170059.localSec ∧
          clockAt170059.localHour * 3600 + clockAt170059.localMin * 60 +
              clockAt170059.localSec ≤ (17 : Int) * 3600 + 0 * 60 + 59) :=
  ⟨by decide,
   timeRange_fourArg_inclusive.1 8 30 17 0 clockAt170059 (by decide)⟩

/-- Claim C7: a `timeRange` call whose argument count, after removing an
optional trailing GMT marker, is not 1, 2, 4 or 6 evaluates to false for
every clock reading (the `result` variable keeps its `false` default and
no branch runs). -/
theorem timeRange_badArity_false (args : List JSArg) (c : Clock)
    (k1 : TimeRange.arityAfterGMT args ≠ 1)
    (k2 : TimeRange.arityAfterGMT args ≠ 2)
    (k4 : TimeRange.arityAfterGMT args ≠ 4)
    (k6 : TimeRange.arityAfterGMT args ≠ 6) :
    TimeRange.timeRange args c = false := by
  cases hl : args.getLast? with
  | none =>
      have : args = [] := List.getLast?_eq_none_iff.mp hl
      subst this
      rfl
  | some la =>
      by_cases hg : la = JSArg.str "GMT"
      · subst hg
        have hk : TimeRange.arityAfterGMT args = args.length - 1 := by
          unfold TimeRange.arityAfterGMT
          rw [hl]
          simp
        rw [hk] at k1 k2 k4 k6
        have hstrip : TimeRange.stripGMT args = (true, args.dropLast) := by
          unfold TimeRange.stripGMT
          rw [hl]
          simp
        unfold TimeRange.timeRange
        rw [hstrip]
        apply timeRangeNum_arity_false <;>
          simp only [List.length_map, List.length_dropLast] <;> assumption
      · have hk : TimeRange.arityAfterGMT args = args.length := by
          unfold TimeRange.arityAfterGMT
          rw [hl]
          simp [hg]
        rw [hk] at k1 k2 k4 k6
        have hstrip : TimeRange.stripGMT args = (false, args) := by
          unfold TimeRange.stripGMT
          rw [hl]
          simp [hg]
        unfold TimeRange.timeRange
        rw [hstrip]
        apply timeRangeNum_arity_false <;>
          simp only [List.length_map] <;> assumption

/-- Witness for claim C7, at the 3-argument call `timeRange(1, 2, 3)`. -/
theorem timeRange_badArity_false_witness :
    TimeRange.arityAfterGMT [JSArg.num 1, JSArg.num 2, JSArg.num 3] = 3 ∧
    TimeRange.timeRange [JSArg.num 1, JSArg.num 2, JSArg.num 3] clockWed
      = false :=
  ⟨by decide,
   timeRange_badArity_false [JSArg.num 1, JSArg.num 2, JSArg.num 3]
     clockWed (by decide) (by decide) (by decide) (by decide)⟩

/-- Claim C8: `timeRange` arguments are parsed as base-10 integers;
non-numeric input parses to the NaN sentinel, every comparison involving
the sentinel is false, and any shape whose numeric argument list
contains the sentinel evaluates to false for every clock reading. -/
theorem timeRange_nanPropagation :
    (∀ b, jsLe none b = false) ∧ (∀ a, jsLe a none = false) ∧
    (∀ b, jsLt none b = false) ∧ (∀ a, jsLt a none = false) ∧
    (∀ b, jsEq none b = false) ∧ (∀ a, jsEq a none = false) ∧
    jsParseInt "GMT" = none ∧ jsParseInt "930" = some 930 ∧
    (∀ (args : List JSArg) (c : Clock),
       none ∈ (TimeRange.stripGMT args).2.map parseIntArg →
       TimeRange.timeRange args c = false) := by
  refine ⟨jsLe_none_left, jsLe_none_right, jsLt_none_left, jsLt_none_right,
    jsEq_none_left, jsEq_none_right, by decide, by decide, ?_⟩
  intro args c hmem
  exact timeRangeNum_nan_false _ _ _ hmem

/-- Witness for claim C8, at the malformed 1-argument call
`timeRange("foo")`. -/
theorem timeRange_nanPropagation_witness :
    none ∈ (TimeRange.stripGMT [JSArg.str "foo"]).2.map parseIntArg ∧
    TimeRange.timeRange [JSArg.str "foo"] clockWed = false :=
  ⟨by decide,
   timeRange_nanPropagation.2.2.2.2.2.2.2.2 [JSArg.str "foo"] clockWed
     (by decide)⟩

end TimeRangeClaims

section GmtAndDeterminismClaims

/-- Claim C6: `timeRange` strips a final literal "GMT" argument before
arity dispatch and then reads every clock field from the UTC projection;
any other final argument is kept and the local projection is used.  In
particular `timeRange(12, "GMT")` compares the UTC hour with 12, so its
result is unchanged between two clocks that agree on their UTC fields
(for example the same instant seen from two different local
timezones). -/
theorem timeRange_gmtMarker :
    (∀ (args : List JSArg) (c : Clock),
       args.getLast? = some (JSArg.str "GMT") →
       TimeRange.timeRange args c
         = TimeRange.timeRangeNum true (args.dropLast.map parseIntArg) c) ∧
    (∀ (args : List JSArg) (la : JSArg) (c : Clock),
       args.getLast? = some la → la ≠ JSArg.str "GMT" →
       TimeRange.timeRange args c
         = TimeRange.timeRangeNum false (args.map parseIntArg) c) ∧
    (∀ c : Clock, TimeRange.getCurrentHour true c = c.utcHour) ∧
    (∀ c : Clock, TimeRange.getCurrentMinute true c = c.utcMin) ∧
    (∀ c : Clock, TimeRange.getCurrentSecond true c = c.utcSec) ∧
    (∀ c : Clock, TimeRange.getCurrentHour false c = c.localHour) ∧
    (∀ c : Clock, TimeRange.getCurrentMinute false c = c.localMin) ∧
    (∀ c : Clock, TimeRange.getCurrentSecond false c = c.localSec) ∧
    (∀ c : Clock,
       TimeRange.timeRange [JSArg.num 12, JSArg.str "GMT"] c
         = decide (c.utcHour = 12)) ∧
    (∀ c c2 : Clock, c.utcHour = c2.utcHour →
       TimeRange.timeRange [JSArg.num 12, JSArg.str "GMT"] c
         = TimeRange.timeRange [JSArg.num 12, JSArg.str "GMT"] c2) := by
  have e : ∀ c3 : Clock,
      TimeRange.timeRange [JSArg.num 12, JSArg.str "GMT"] c3
        = decide (c3.utcHour = 12) := fun _ => rfl
  refine ⟨?_, ?_, fun _ => rfl, fun _ => rfl, fun _ => rfl, fun _ => rfl,
    fun _ => rfl, fun _ => rfl, e, ?_⟩
  · intro args c hl
    have hstrip : TimeRange.stripGMT args = (true, args.dropLast) := by
      unfold TimeRange.stripGMT
      rw [hl]
      simp
    unfold TimeRange.timeRange
    rw [hstrip]
  · intro args la c hl hne
    have hstrip : TimeRange.stripGMT args = (false, args) := by
      unfold TimeRange.stripGMT
      rw [hl]
      simp [hne]
    unfold TimeRange.timeRange
    rw [hstrip]
  · intro c c2 h
    rw [e, e, h]

/-- Witness for claim C6, at the call `timeRange(12, "GMT")`. -/
theorem timeRange_gmtMarker_witness :
    [JSArg.num 12, JSArg.str "GMT"].getLast? = some (JSArg.str "GMT") ∧
    TimeRange.timeRange [JSArg.num 12, JSArg.str "GMT"] clockNight
      = TimeRange.timeRangeNum true
          ([JSArg.num 12, JSArg.str "GMT"].dropLast.map parseIntArg)
          clockNight :=
  ⟨by decide,
   timeRange_gmtMarker.1 [JSArg.num 12, JSArg.str "GMT"] clockNight rfl⟩

/-- Claim C9: both predicates are deterministic in their arguments and
the single clock snapshot: two calls with identical argument lists
evaluated against the same clock reading return identical results (the
embedding is a pure function of the argument list and the snapshot; the
source keeps no state across calls). -/
theorem range_predicates_deterministic :
    (∀ (args : List JSArg) (c c2 : Clock), c = c2 →
       TimeRange.timeRange args c = TimeRange.timeRange args c2) ∧
    (∀ (wd1 : String) (wd2 gmt : Option String) (c c2 : Clock), c = c2 →
       WeekdayRange.weekdayRange wd1 wd2 gmt c
         = WeekdayRange.weekdayRange wd1 wd2 gmt c2) :=
  ⟨fun _ _ _ h => by rw [h], fun _ _ _ _ _ h => by rw [h]⟩

/-- Witness for claim C9, at concrete calls of both predicates. -/
theorem range_predicates_deterministic_witness :
    TimeRange.timeRange [JSArg.num 12] clockNight
      = TimeRange.timeRange [JSArg.num 12] clockNight ∧
    WeekdayRange.weekdayRange "MON" none none clockMonday
      = WeekdayRange.weekdayRange "MON" none none clockMonday :=
  ⟨range_predicates_deterministic.1 [JSArg.num 12] clockNight clockNight
     rfl,
   range_predicates_deterministic.2 "MON" none none clockMonday
     clockMonday rfl⟩

end GmtAndDeterminismClaims

section WeekdayRangeClaims

/-- Claim C2 counterexample: "XYZ" is not a weekday token (its index is
-1), yet `weekdayRange("XYZ", "SAT")` is true: with a valid second
weekday the code runs the range test `-1 <= today <= 6`, which every
weekday satisfies, so the unrecognized wd1 does not force a false
result for every choice of the optional arguments. -/
theorem weekdayRange_badWd1_cex :
    WeekdayRange.jsIndexOf WeekdayRange.weekdays "XYZ" = -1 ∧
    WeekdayRange.weekdayRange "XYZ" (some "SAT") none clockWed = true := by
  refine ⟨by decide, by decide⟩

/-- Claim C2 (amended): a `weekdayRange` call whose first argument is
not one of the seven weekday tokens yields index -1, and when no valid
second weekday token is present (absent, the GMT marker, or
unrecognized) the equality test of the single-weekday form never matches
a real weekday, so the result is false for every valid clock reading;
with a valid second weekday token the -1 index instead enters the range
test and the call can return true. -/
theorem weekdayRange_badWd1_false (wd1 : String) (wd2 gmt : Option String)
    (c : Clock) (hc : c.Valid)
    (h1 : WeekdayRange.jsIndexOf WeekdayRange.weekdays wd1 = -1)
    (h2 : WeekdayRange.isWeekday wd2 = false) :
    WeekdayRange.weekdayRange wd1 wd2 gmt c = false := by
  unfold Clock.Valid at hc
  unfold WeekdayRange.weekdayRange
  rw [h1, h2]
  simp only [Bool.and_false, Bool.false_eq_true, if_false]
  rw [if_pos (by decide : (-1 : Int) < 0)]
  unfold WeekdayRange.getTodaysDay
  split
  · exact decide_eq_false (by omega)
  · exact decide_eq_false (by omega)

/-- Witness for the amended claim C2, at `weekdayRange("XYZ")` on a
Wednesday. -/
theorem weekdayRange_badWd1_false_witness :
    clockWed.Valid ∧
    WeekdayRange.jsIndexOf WeekdayRange.weekdays "XYZ" = -1 ∧
    WeekdayRange.isWeekday none = false ∧
    WeekdayRange.weekdayRange "XYZ" none none clockWed = false :=
  ⟨by decide, by decide, by decide,
   weekdayRange_badWd1_false "XYZ" none none clockWed (by decide)
     (by decide) (by decide)⟩

/-- Claim C3: the two-weekday form with valid tokens whose first index
exceeds the second wraps across the week boundary: the result is true
iff `index(wd1) <= today <= 6` or `0 <= today <= index(wd2)`; in
particular `weekdayRange("FRI", "MON")` is true exactly on weekday
indices 5, 6, 0 and 1, and `(MON, FRI)` is not equivalent to
`(FRI, MON)` (they differ on a Wednesday). -/
theorem weekdayRange_wraparound :
    (∀ (w1 w2 : String) (c : Clock),
       WeekdayRange.isWeekday (some w1) = true →
       WeekdayRange.isWeekday (some w2) = true →
       WeekdayRange.jsIndexOf WeekdayRange.weekdays w2
           < WeekdayRange.jsIndexOf WeekdayRange.weekdays w1 →
       WeekdayRange.weekdayRange w1 (some w2) none c
         = decide
             ((WeekdayRange.jsIndexOf WeekdayRange.weekdays w1 ≤
                   c.localDay ∧ c.localDay ≤ 6) ∨
               (0 ≤ c.localDay ∧
                 c.localDay ≤
                   WeekdayRange.jsIndexOf WeekdayRange.weekdays w2))) ∧
    (∀ c : Clock,
       WeekdayRange.weekdayRange "FRI" (some "MON") none c
         = decide (c.localDay = 5 ∨ c.localDay = 6 ∨ c.localDay = 0 ∨
             c.localDay = 1)) ∧
    WeekdayRange.weekdayRange "MON" (some "FRI") none clockWed = true ∧
    WeekdayRange.weekdayRange "FRI" (some "MON") none clockWed = false := by
  refine ⟨?_, ?_, by decide, by decide⟩
  · intro w1 w2 c hw1 hw2 hlt
    have hne : w2 ≠ "GMT" := by
      intro h
      rw [h] at hw2
      exact absurd hw2 (by decide)
    have hgmt : WeekdayRange.isGMT (some w2) = false := by
      simp [WeekdayRange.isGMT, hne]
    have hi2 : 0 ≤ WeekdayRange.jsIndexOf WeekdayRange.weekdays w2 := by
      rcases jsIndexOf_neg_one_or_nonneg WeekdayRange.weekdays w2 with h | h
      · exfalso
        have hw2x :
            (WeekdayRange.jsIndexOf WeekdayRange.weekdays w2 != -1)
              = true := hw2
        rw [h] at hw2x
        exact absurd hw2x (by decide)
      · exact h
    unfold WeekdayRange.weekdayRange
    rw [hgmt, hw2]
    simp only [Bool.and_false, Bool.not_false, Bool.true_and,
      Bool.or_false, if_true, WeekdayRange.jsIndexOfOpt]
    rw [if_neg (by omega :
          ¬ WeekdayRange.jsIndexOf WeekdayRange.weekdays w2 < 0),
      if_neg (by omega :
          ¬ WeekdayRange.jsIndexOf WeekdayRange.weekdays w1 ≤
              WeekdayRange.jsIndexOf WeekdayRange.weekdays w2)]
    unfold WeekdayRange.valueInRange WeekdayRange.getTodaysDay
    simp only [WeekdayRange.isGMT, Bool.or_self]
    rw [← Bool.decide_and, ← Bool.decide_and, ← Bool.decide_or]
    rfl
  · intro c
    have key : WeekdayRange.weekdayRange "FRI" (some "MON") none c
        = (WeekdayRange.valueInRange 5 c.localDay 6 ||
           WeekdayRange.valueInRange 0 c.localDay 1) := rfl
    rw [key]
    unfold WeekdayRange.valueInRange
    rw [← Bool.decide_and, ← Bool.decide_and, ← Bool.decide_or]
    exact decide_eq_decide.mpr (by omega)

/-- Witness for claim C3, at `weekdayRange("FRI", "MON")` on a
Wednesday. -/
theorem weekdayRange_wraparound_witness :
    WeekdayRange.isWeekday (some "FRI") = true ∧
    WeekdayRange.isWeekday (some "MON") = true ∧
    WeekdayRange.jsIndexOf WeekdayRange.weekdays "MON"
        < WeekdayRange.jsIndexOf WeekdayRange.weekdays "FRI" ∧
    WeekdayRange.weekdayRange "FRI" (some "MON") none clockWed
      = decide
          ((WeekdayRange.jsIndexOf WeekdayRange.weekdays "FRI" ≤
                clockWed.localDay ∧ clockWed.localDay ≤ 6) ∨
            (0 ≤ clockWed.localDay ∧
              clockWed.localDay ≤
                WeekdayRange.jsIndexOf WeekdayRange.weekdays "MON")) :=
  ⟨by decide, by decide, by decide,
   weekdayRange_wraparound.1 "FRI" "MON" clockWed (by decide) (by decide)
     (by decide)⟩

/-- Claim C10: a present second argument that is neither a weekday token
nor the GMT marker is silently ignored: with no GMT marker anywhere the
call degrades to the single-weekday local-time form, true iff today's
local weekday index equals wd1's index; in particular
`weekdayRange("MON", "XYZ")` is true on a Monday and false on a
Wednesday. -/
theorem weekdayRange_badWd2_ignored :
    (∀ (wd1 s : String) (gmt : Option String) (c : Clock),
       WeekdayRange.isWeekday (some s) = false →
       WeekdayRange.isGMT (some s) = false →
       WeekdayRange.isGMT gmt = false →
       WeekdayRange.weekdayRange wd1 (some s) gmt c
         = decide
             (c.localDay
               = WeekdayRange.jsIndexOf WeekdayRange.weekdays wd1)) ∧
    WeekdayRange.weekdayRange "MON" (some "XYZ") none clockMonday
      = true ∧
    WeekdayRange.weekdayRange "MON" (some "XYZ") none clockWed
      = false := by
  refine ⟨?_, by decide, by decide⟩
  intro wd1 s gmt c hw hg1 hg2
  unfold WeekdayRange.weekdayRange
  rw [hw, hg1, hg2]
  simp only [Bool.and_false, Bool.false_eq_true, if_false, Bool.or_false,
    Bool.false_or]
  rw [if_pos (by decide : (-1 : Int) < 0)]
  rfl

/-- Witness for claim C10, at `weekdayRange("MON", "XYZ")` on a
Monday. -/
theorem weekdayRange_badWd2_ignored_witness :
    WeekdayRange.isWeekday (some "XYZ") = false ∧
    WeekdayRange.isGMT (some "XYZ") = false ∧
    WeekdayRange.isGMT none = false ∧
    WeekdayRange.weekdayRange "MON" (some "XYZ") none clockMonday
      = decide
          (clockMonday.localDay
            = WeekdayRange.jsIndexOf WeekdayRange.weekdays "MON") :=
  ⟨by decide, by decide, by decide,
   weekdayRange_badWd2_ignored.1 "MON" "XYZ" none clockMonday (by decide)
     (by decide) (by decide)⟩

end WeekdayRangeClaims
